import Mathlib

/-!
Verification of the notionquiz review-scheduling core: the priority
ranker (`calculatePriority`) and the SM-2 review scheduler
(`calculateNextReview`, `getRatingQuality`), embedded from the
repository's utility modules.

Timestamps are modelled as integer milliseconds since the epoch;
JavaScript numbers used for ease factors and qualities are modelled as
rationals; `Math.floor` of a millisecond difference over a day becomes
integer floor division, and `Math.round` becomes `⌊x + 1/2⌋` (round half
toward positive infinity), matching JavaScript semantics.
-/

namespace NotionQuiz

/-- Review statistics kept per paper.  Optional fields (`lastReviewed`,
`dueDate`, `masteryScore`) are `Option`s: `none` is the absent /
`undefined` case guarded in the source. -/
structure PaperStats where
  lastReviewed : Option Int
  masteryScore : Option ℚ
  reviewCount : Nat := 0
  easeFactor : ℚ := 5 / 2
  interval : Int := 0
  dueDate : Option Int
deriving Repr, DecidableEq

/-- Milliseconds in a day, the divisor `1000 * 60 * 60 * 24`. -/
def msPerDay : Int := 1000 * 60 * 60 * 24

/-- `Math.floor((now - lastReviewed) / msPerDay)`: floor division of the
millisecond difference by a day. -/
def daysSince (now lastReviewed : Int) : Int :=
  (now - lastReviewed).fdiv msPerDay

/-- `calculatePriority` from the priority-calculation module.  `now` is
the wall clock read via `Date.now()` / `new Date()`.  `stats = none`
is a paper with no stats record (`stats` parameter undefined). -/
def calculatePriority (now : Int) (stats : Option PaperStats) : Int :=
  let base : Int :=
    match stats.bind (·.lastReviewed) with
    | none => 50
    | some last => min (daysSince now last * 2) 30
  let mastery : Int :=
    match stats.bind (·.masteryScore) with
    | some m => if m < 50 then 20 else 0
    | none => 0
  let due : Int :=
    match stats.bind (·.dueDate) with
    | some d => if d ≤ now then 25 else 0
    | none => 0
  base + mastery + due

/-- Result record of `calculateNextReview`. -/
structure SpacedRepetitionResult where
  interval : Int
  easeFactor : ℚ
deriving Repr, DecidableEq

/-- JavaScript `Math.round`: round half toward positive infinity. -/
def jsRound (x : ℚ) : Int := ⌊x + 1 / 2⌋

/-- `calculateNextReview(quality, previousInterval = 0, easeFactor = 2.5)`
from the spaced-repetition module (simplified SM-2). -/
def calculateNextReview (quality : ℚ) (previousInterval : ℚ := 0)
    (easeFactor : ℚ := 5 / 2) : SpacedRepetitionResult :=
  if quality < 3 then
    { interval := 1
      easeFactor := max (13 / 10) (easeFactor - 2 / 10) }
  else
    let newInterval : Int :=
      if previousInterval = 0 then 1
      else if previousInterval = 1 then 3
      else jsRound (previousInterval * easeFactor)
    let newEaseFactor : ℚ :=
      easeFactor + (1 / 10 - (5 - quality) * (8 / 100 + (5 - quality) * (2 / 100)))
    { interval := min newInterval 60
      easeFactor := max (13 / 10) newEaseFactor }

/-- Values a JavaScript property read can produce on the rating table: an
own numeric entry, a non-nullish member inherited from
`Object.prototype`, or `undefined`. -/
inductive JsLookup where
  | num : ℚ → JsLookup
  | protoMember : String → JsLookup
  | undefined : JsLookup
deriving Repr, DecidableEq

/-- Property names every object literal inherits from `Object.prototype`;
reading any of these on the rating table is non-nullish. -/
def objectPrototypeKeys : List String :=
  ["constructor", "hasOwnProperty", "isPrototypeOf", "propertyIsEnumerable",
   "toLocaleString", "toString", "valueOf", "__proto__",
   "__defineGetter__", "__defineSetter__", "__lookupGetter__",
   "__lookupSetter__"]

/-- `qualityMap[ratingKey]` as a JavaScript property read on the object
literal `{forgot: 0, struggled: 2, good: 4, perfect: 5}`: the four own
entries first, then the `Object.prototype` chain, then `undefined`. -/
def qualityMap (ratingKey : String) : JsLookup :=
  if ratingKey = "forgot" then .num 0
  else if ratingKey = "struggled" then .num 2
  else if ratingKey = "good" then .num 4
  else if ratingKey = "perfect" then .num 5
  else if ratingKey ∈ objectPrototypeKeys then .protoMember ratingKey
  else .undefined

/-- `getRatingQuality(ratingKey)`: the property read with the `?? 2`
nullish fallback, which replaces only `undefined`. -/
def getRatingQuality (ratingKey : String) : JsLookup :=
  match qualityMap ratingKey with
  | .undefined => .num 2
  | v => v

/-- Evaluation of `calculatePriority` on a present stats record: the three
additive terms, one per `priority +=` statement of the source. -/
theorem calculatePriority_some_eq (now : Int) (lr : Option Int) (m : Option ℚ)
    (rc : Nat) (ef : ℚ) (itv : Int) (due : Option Int) :
    calculatePriority now (some ⟨lr, m, rc, ef, itv, due⟩) =
      (lr.elim (50 : Int) fun last => min (daysSince now last * 2) 30)
      + (m.elim (0 : Int) fun ms => if ms < 50 then 20 else 0)
      + (due.elim (0 : Int) fun d => if d ≤ now then 25 else 0) := by
  cases lr <;> cases m <;> cases due <;> rfl

/-- C1 counterexample: a record that was never reviewed but carries a past
`dueDate` scores 75, not the 50 the claim demands — the due-date +25 term
does apply even when `lastReviewed` is null. -/
theorem calculatePriority_due_term_applies_cx :
    calculatePriority 0 (some ⟨none, none, 0, 5 / 2, 0, some (-1)⟩) = 75 ∧
    calculatePriority 0 (some ⟨none, none, 0, 5 / 2, 0, some (-1)⟩) ≠ 50 := by
  constructor <;> decide

/-- C1 (amended): for a never-reviewed record, `calculatePriority` returns
50, plus 20 when `masteryScore` is defined and below 50, plus 25 when
`dueDate` is defined and not after `now` — the due-date term is applied
independently of `lastReviewed`. -/
theorem calculatePriority_never_reviewed (now : Int) (m : Option ℚ) (rc : Nat)
    (ef : ℚ) (itv : Int) (due : Option Int) :
    calculatePriority now (some ⟨none, m, rc, ef, itv, due⟩) =
      50 + (m.elim (0 : Int) fun ms => if ms < 50 then 20 else 0)
         + (due.elim (0 : Int) fun d => if d ≤ now then 25 else 0) := by
  cases m <;> cases due <;> rfl

/-- C2 counterexample: out-of-range qualities are accepted and produce
ordinary results — quality 6 and quality −1 both return a record through
the normal branches, with no validation failure. -/
theorem calculateNextReview_no_error_cx :
    calculateNextReview 6 0 (5 / 2) = ⟨1, 133 / 50⟩ ∧
    calculateNextReview (-1) 10 (5 / 2) = ⟨1, 23 / 10⟩ := by
  constructor <;> norm_num [calculateNextReview, max_def, min_def]

/-- C2 (amended): `calculateNextReview` performs no input validation — it
is total, and every out-of-range quality is processed by the same two
branches: any quality below 3 (including negatives) yields the relearn
result, and any quality above 5 yields the success-branch result (for
quality 6 the ease delta evaluates to +0.16). -/
theorem calculateNextReview_total_on_out_of_range (p e : ℚ) :
    calculateNextReview (-1) p e = ⟨1, max (13 / 10) (e - 2 / 10)⟩ ∧
    calculateNextReview 6 p e =
      ⟨min (if p = 0 then 1 else if p = 1 then 3 else jsRound (p * e)) 60,
       max (13 / 10) (e + 16 / 100)⟩ := by
  constructor
  · unfold calculateNextReview
    rw [if_pos (by norm_num : (-1 : ℚ) < 3)]
  · unfold calculateNextReview
    rw [if_neg (by norm_num : ¬ (6 : ℚ) < 3)]
    norm_num

/-- C3 counterexample: a `lastReviewed` timestamp 10 days in the future
makes `daysSince` equal −10 and the returned priority −20, which is
negative. -/
theorem calculatePriority_negative_cx :
    calculatePriority 0 (some ⟨some (10 * msPerDay), none, 0, 5 / 2, 0, none⟩) = -20 ∧
    calculatePriority 0 (some ⟨some (10 * msPerDay), none, 0, 5 / 2, 0, none⟩) < 0 := by
  constructor <;> decide

/-- C3 (amended): whenever the record's `lastReviewed` (if any) does not
lie in the future of `now` — in particular for absent stats and for
never-reviewed records — `calculatePriority` returns a non-negative
score. -/
theorem calculatePriority_nonneg (now : Int) (stats : Option PaperStats)
    (h : ∀ last, stats.bind (fun s => s.lastReviewed) = some last → last ≤ now) :
    0 ≤ calculatePriority now stats := by
  cases stats with
  | none =>
    show (0 : Int) ≤ 50
    norm_num
  | some s =>
    obtain ⟨lr, m, rc, ef, itv, due⟩ := s
    rw [calculatePriority_some_eq]
    have h1 : 0 ≤ lr.elim (50 : Int) fun last => min (daysSince now last * 2) 30 := by
      cases lr with
      | none => simp
      | some last =>
        have hlast : last ≤ now := h last rfl
        have hd : 0 ≤ daysSince now last :=
          Int.fdiv_nonneg (by omega) (by decide)
        simp only [Option.elim_some]
        exact le_min (by omega) (by norm_num)
    have h2 : 0 ≤ m.elim (0 : Int) fun ms => if ms < 50 then 20 else 0 := by
      cases m with
      | none => simp
      | some ms =>
        simp only [Option.elim_some]
        split_ifs <;> norm_num
    have h3 : 0 ≤ due.elim (0 : Int) fun d => if d ≤ now then 25 else 0 := by
      cases due with
      | none => simp
      | some d =>
        simp only [Option.elim_some]
        split_ifs <;> norm_num
    exact add_nonneg (add_nonneg h1 h2) h3

/-- C3 witness: at `now = 0` with `lastReviewed = 0`, `masteryScore = 40`
and a past `dueDate`, the priority is 45 and in particular non-negative. -/
theorem calculatePriority_nonneg_witness :
    calculatePriority 0 (some ⟨some 0, some 40, 0, 5 / 2, 0, some (-5)⟩) = 45 ∧
    0 ≤ calculatePriority 0 (some ⟨some 0, some 40, 0, 5 / 2, 0, some (-5)⟩) :=
  ⟨by decide,
   calculatePriority_nonneg 0 (some ⟨some 0, some 40, 0, 5 / 2, 0, some (-5)⟩)
     (fun last hl => le_of_eq (Option.some.inj hl).symm)⟩

/-- C4: any quality below 3 takes the relearn branch — the interval resets
to 1 and the ease factor becomes `max(1.3, easeFactor − 0.2)`, whatever the
previous interval was. -/
theorem calculateNextReview_fail_branch (q p e : ℚ) (h : q < 3) :
    calculateNextReview q p e = ⟨1, max (13 / 10) (e - 2 / 10)⟩ := by
  unfold calculateNextReview
  rw [if_pos h]

/-- C4 witness: quality 0 at the floor `easeFactor = 1.3` keeps the ease
factor at 1.3 (the floor is a fixed point) and resets the interval to 1. -/
theorem calculateNextReview_fail_branch_witness :
    (0 : ℚ) < 3 ∧ calculateNextReview 0 10 (13 / 10) = ⟨1, 13 / 10⟩ := by
  refine ⟨by norm_num, ?_⟩
  rw [calculateNextReview_fail_branch 0 10 (13 / 10) (by norm_num)]
  norm_num [max_def]

/-- C5: for any quality ≥ 3, the returned interval is 1 when the previous
interval was 0, 3 when it was 1, and otherwise the previous interval times
the ease factor rounded to the nearest integer, the whole capped at 60. -/
theorem calculateNextReview_success_interval (q p e : ℚ) (h : 3 ≤ q) :
    (calculateNextReview q p e).interval =
      min (if p = 0 then 1 else if p = 1 then 3 else jsRound (p * e)) 60 := by
  unfold calculateNextReview
  rw [if_neg (not_lt.mpr h)]

/-- C5 witness: `calculateNextReview 5 1 2.6` returns interval 3 (the fixed
second step), not `round(1 * 2.6)`. -/
theorem calculateNextReview_success_interval_witness :
    (3 : ℚ) ≤ 5 ∧ (calculateNextReview 5 1 (13 / 5)).interval = 3 := by
  refine ⟨by norm_num, ?_⟩
  rw [calculateNextReview_success_interval 5 1 (13 / 5) (by norm_num)]
  norm_num [min_def]

/-- C6: for any quality ≥ 3, the returned ease factor is
`max(1.3, easeFactor + (0.1 − (5 − quality)·(0.08 + (5 − quality)·0.02)))`,
the standard SM-2 ease adjustment under the 1.3 floor. -/
theorem calculateNextReview_success_ease (q p e : ℚ) (h : 3 ≤ q) :
    (calculateNextReview q p e).easeFactor =
      max (13 / 10) (e + (1 / 10 - (5 - q) * (8 / 100 + (5 - q) * (2 / 100)))) := by
  unfold calculateNextReview
  rw [if_neg (not_lt.mpr h)]

/-- C6 witness: quality 5 raises the ease factor by exactly 0.1
(`calculateNextReview 5 0 2.5 = ⟨1, 2.6⟩`) and quality 4 leaves it
unchanged while the interval becomes `round(3 · 2.5) = 8`
(`calculateNextReview 4 3 2.5 = ⟨8, 2.5⟩`). -/
theorem calculateNextReview_success_ease_witness :
    (3 : ℚ) ≤ 5 ∧ (calculateNextReview 5 0 (5 / 2)).easeFactor = 13 / 5 ∧
    calculateNextReview 5 0 (5 / 2) = ⟨1, 13 / 5⟩ ∧
    calculateNextReview 4 3 (5 / 2) = ⟨8, 5 / 2⟩ := by
  refine ⟨by norm_num, ?_, ?_, ?_⟩
  · rw [calculateNextReview_success_ease 5 0 (5 / 2) (by norm_num)]
    norm_num [max_def]
  · norm_num [calculateNextReview, max_def, min_def]
  · norm_num [calculateNextReview, jsRound, max_def, min_def]

/-- C7: the returned ease factor is at least 1.3 on both branches. -/
theorem calculateNextReview_ease_floor (q p e : ℚ) :
    13 / 10 ≤ (calculateNextReview q p e).easeFactor := by
  unfold calculateNextReview
  split
  · exact le_max_left _ _
  · exact le_max_left _ _

/-- C8: the returned interval is at most 60 on both branches. -/
theorem calculateNextReview_interval_cap (q p e : ℚ) :
    (calculateNextReview q p e).interval ≤ 60 := by
  unfold calculateNextReview
  split
  · norm_num
  · exact min_le_right _ _

/-- C9: once a paper is at least 15 days overdue, the time-based term of
`calculatePriority` is exactly 30 — the score is 30 plus the mastery and
due-date bonuses, independent of how much further overdue it is. -/
theorem calculatePriority_time_cap (now last : Int) (m : Option ℚ) (rc : Nat)
    (ef : ℚ) (itv : Int) (due : Option Int) (h : 15 ≤ daysSince now last) :
    calculatePriority now (some ⟨some last, m, rc, ef, itv, due⟩) =
      30 + (m.elim (0 : Int) fun ms => if ms < 50 then 20 else 0)
         + (due.elim (0 : Int) fun d => if d ≤ now then 25 else 0) := by
  rw [calculatePriority_some_eq]
  simp only [Option.elim_some]
  rw [min_eq_right (by omega : (30 : Int) ≤ daysSince now last * 2)]

/-- C9 witness: with `lastReviewed` 20 days before `now`, `masteryScore`
40 and a past `dueDate`, the score is 30 + 20 + 25 = 75. -/
theorem calculatePriority_time_cap_witness :
    15 ≤ daysSince (20 * msPerDay) 0 ∧
    calculatePriority (20 * msPerDay)
      (some ⟨some 0, some 40, 0, 5 / 2, 0, some (-1)⟩) = 75 := by
  refine ⟨by decide, ?_⟩
  rw [calculatePriority_time_cap (20 * msPerDay) 0 (some 40) 0 (5 / 2) 0
    (some (-1)) (by decide)]
  decide

/-- C10 counterexample: reading "toString" on the rating table hits the
member inherited from `Object.prototype`, which is non-nullish, so the
`?? 2` fallback does not fire and `getRatingQuality` does not return the
default quality 2. -/
theorem getRatingQuality_proto_cx :
    getRatingQuality "toString" = JsLookup.protoMember "toString" ∧
    getRatingQuality "toString" ≠ JsLookup.num 2 := by
  constructor <;> decide

/-- C10 (amended): `getRatingQuality` never rejects a key — each of the
four known rating keys returns its fixed quality (forgot 0, struggled 2,
good 4, perfect 5); a key that is neither a rating key nor an
`Object.prototype` property name falls through to the default quality 2;
but on the inherited property names the lookup is non-nullish, so the
inherited member is returned instead of the default. -/
theorem getRatingQuality_lookup :
    (getRatingQuality "forgot" = JsLookup.num 0 ∧
     getRatingQuality "struggled" = JsLookup.num 2 ∧
     getRatingQuality "good" = JsLookup.num 4 ∧
     getRatingQuality "perfect" = JsLookup.num 5) ∧
    (∀ k : String, k ≠ "forgot" → k ≠ "struggled" → k ≠ "good" →
      k ≠ "perfect" → k ∉ objectPrototypeKeys →
      getRatingQuality k = JsLookup.num 2) ∧
    (∀ k : String, k ≠ "forgot" → k ≠ "struggled" → k ≠ "good" →
      k ≠ "perfect" → k ∈ objectPrototypeKeys →
      getRatingQuality k = JsLookup.protoMember k) := by
  refine ⟨⟨by decide, by decide, by decide, by decide⟩, ?_, ?_⟩
  · intro k h1 h2 h3 h4 h5
    simp [getRatingQuality, qualityMap, h1, h2, h3, h4, h5]
  · intro k h1 h2 h3 h4 h5
    simp [getRatingQuality, qualityMap, h1, h2, h3, h4, h5]

/-- C10 witness: the out-of-enum key "mystery" is not an inherited
property name and gets the default quality 2, while the inherited name
"toString" returns the prototype member instead. -/
theorem getRatingQuality_lookup_witness :
    (("mystery" : String) ≠ "forgot" ∧
     ("mystery" : String) ∉ objectPrototypeKeys ∧
     getRatingQuality "mystery" = JsLookup.num 2) ∧
    (("toString" : String) ∈ objectPrototypeKeys ∧
     getRatingQuality "toString" = JsLookup.protoMember "toString") :=
  ⟨⟨by decide, by decide,
    getRatingQuality_lookup.2.1 "mystery" (by decide) (by decide) (by decide)
      (by decide) (by decide)⟩,
   ⟨by decide,
    getRatingQuality_lookup.2.2 "toString" (by decide) (by decide) (by decide)
      (by decide) (by decide)⟩⟩

end NotionQuiz
